import Mathlib

/-!
Verification development for the dstack-nft-cluster repository.

Byte strings (Python `bytes`, and ASCII text passed through `.encode()`)
are modelled as `List Nat`, one element per byte.  The cryptographic
primitives (keccak256, secp256k1 public-key / address recovery) are kept
abstract: definitions that use them take them as function arguments, so
theorems about preimage construction quantify over every possible
primitive, exactly as the code feeds its preimages into library calls.
-/

/-- ASCII bytes of a string literal (all strings in the modelled code are
ASCII, so `Char.toNat` is the byte value). -/
def asciiBytes (s : String) : List Nat :=
  s.data.map Char.toNat

/-- Lowercase-hex digit for a value below 16, as an ASCII byte
(Python `bytes.hex()` digit alphabet `0-9a-f`). -/
def hexDigit (n : Nat) : Nat :=
  if n < 10 then 48 + n else 87 + n

/-- Lowercase-hex encoding of a byte string, as ASCII bytes: Python
`bytes.hex()` — two hex digits per byte, no `0x`, no separators. -/
def bytesToHex (bs : List Nat) : List Nat :=
  (bs.map (fun b => [hexDigit (b / 16), hexDigit (b % 16)])).flatten

/-- ASCII bytes of the string `"ethereum"`, the purpose used by
`DStackP2PSDK.register`. -/
def ethereumPurposeBytes : List Nat := asciiBytes "ethereum"

/-- App-signature preimage built by `DStackP2PSDK.register`
(dstack_cluster.py line 118): `f"ethereum:{derived_pubkey_sec1.hex()}"`,
where `derived_pubkey_sec1` is the compressed derived public key.  The
argument is the compressed public key bytes. -/
def registerAppMessage (derivedPubkeySec1 : List Nat) : List Nat :=
  ethereumPurposeBytes ++ asciiBytes ":" ++ bytesToHex derivedPubkeySec1

/-- App-signature preimage built by `debug_signature_verification`
(debug_signature_verification.py lines 32-41):
`purpose.encode() + b":" + ("0x" + proof.derived_public_key.hex()).encode()`.
Note the `"0x"` in front of the hex digits. -/
def debugAppMessage (purposeBytes derivedPublicKey : List Nat) : List Nat :=
  purposeBytes ++ asciiBytes ":" ++ (asciiBytes "0x" ++ bytesToHex derivedPublicKey)

/-- Modelled from the claim's words (refinement target): the preimage
`purpose + ":" + lowercase-hex(compressed derived public key)`, with no
`"0x"` and no padding. -/
def claimedAppPreimage (purposeBytes derivedPublicKey : List Nat) : List Nat :=
  purposeBytes ++ asciiBytes ":" ++ bytesToHex derivedPublicKey

/-- App-public-key recovery performed by `DStackP2PSDK.register`
(dstack_cluster.py lines 119-121): raw keccak256 of the message, then
`recover_public_key_from_msg_hash` on the app signature, compressed.
`keccak` and `recoverPubkey` abstract the eth-utils / eth-keys
primitives. -/
def registerRecoveredAppPubkey (keccak : List Nat → List Nat)
    (recoverPubkey : List Nat → List Nat → List Nat)
    (appSignature derivedPubkeySec1 : List Nat) : List Nat :=
  recoverPubkey appSignature (keccak (registerAppMessage derivedPubkeySec1))

/-- ASCII bytes of the KMS preimage tag `"dstack-kms-issued:"`. -/
def kmsIssuedTag : List Nat := asciiBytes "dstack-kms-issued:"

/-- KMS preimage built by `debug_signature_verification` ("Format 1",
debug_signature_verification.py line 61):
`b"dstack-kms-issued:" + proof.app_id + app_public_key_bytes`, where
`app_public_key_bytes` are the 20 bytes of the hex digits of the value
returned by `Account._recover_hash` — an Ethereum *address*, not a
compressed public key — and `proof.app_id` is used unpadded. -/
def debugKmsMessage (appId appPublicKeyBytes : List Nat) : List Nat :=
  kmsIssuedTag ++ appId ++ appPublicKeyBytes

/-- KMS preimage built by `test_signature_formats` for the "current
DstackMembershipNFT format" (test_contract_signature_verification.py
line 95): `b"dstack-kms-issued:" + app_id_bytes32 + app_pubkey_sec1`. -/
def testKmsMessageCurrent (appIdBytes32 appPubkeySec1 : List Nat) : List Nat :=
  kmsIssuedTag ++ appIdBytes32 ++ appPubkeySec1

/-- KMS preimage built by `test_signature_formats` for the "working
SimpleDstackVerifier format" (test_contract_signature_verification.py
line 88): the appId truncated to its first 20 bytes, unpadded. -/
def testKmsMessageWorking (appIdBytes20 appPubkeySec1 : List Nat) : List Nat :=
  kmsIssuedTag ++ appIdBytes20 ++ appPubkeySec1

/-- Modelled from the claim's words (refinement target): the preimage
`"dstack-kms-issued:" + appId (32 bytes) + compressed app public key`. -/
def claimedKmsPreimage (appIdBytes32 compressedAppPubkey : List Nat) : List Nat :=
  kmsIssuedTag ++ appIdBytes32 ++ compressedAppPubkey

/-- Python `str.lower()` on one ASCII byte. -/
def lowerByte (b : Nat) : Nat :=
  if 65 ≤ b ∧ b ≤ 90 then b + 32 else b

/-- Python `str.lower()` on an ASCII byte string, as used on the hex
address strings compared by the verification scripts. -/
def lowerBytes (l : List Nat) : List Nat :=
  l.map lowerByte

/-- Acceptance test of `debug_signature_verification` (line 125):
`kms_signer.lower() == kms_root_address.lower()` — a case-insensitive
comparison of the recovered signer address with the expected root. -/
def kmsAccept (recoveredSigner expectedRoot : List Nat) : Bool :=
  lowerBytes recoveredSigner == lowerBytes expectedRoot

/-- Full KMS-link verification pipeline over abstract primitives:
keccak256 of the preimage, address recovery from the KMS signature
(`none` models a recovery exception), then the case-insensitive
comparison with the expected root.  This is the step-2/step-3 logic of
the verification scripts (debug_signature_verification.py lines 61-66
and 121-125; test_contract_signature_verification.py lines 95-99). -/
def verifyKmsLink (keccak : List Nat → List Nat)
    (recoverAddress : List Nat → List Nat → Option (List Nat))
    (preimage kmsSignature expectedRoot : List Nat) : Bool :=
  match recoverAddress (keccak preimage) kmsSignature with
  | none => false
  | some signer => kmsAccept signer expectedRoot

/-- Conversion of the appId to the 32-byte value used for the contract's
`bytes32` argument, from `DStackP2PSDK.register` (dstack_cluster.py
line 125): `bytes.fromhex(app_id.replace('0x', '')).ljust(32, b'\x00')[:32]`.
The argument is the already hex-decoded appId byte string. -/
def registerAppIdBytes32 (appId : List Nat) : List Nat :=
  List.take 32 (appId ++ List.replicate (32 - appId.length) 0)

/-- The same conversion as written independently in
`test_signature_formats` (test_contract_signature_verification.py
line 78): `bytes.fromhex(proof.app_id.replace('0x', '')).ljust(32, b'\x00')[:32]`. -/
def testAppIdBytes32 (appId : List Nat) : List Nat :=
  List.take 32 (appId ++ List.replicate (32 - appId.length) 0)

/-- Modelled from the spec's words, as the rejected alternative layout:
the appId left-padded with zero bytes to 32 bytes. -/
def appIdLeftPad32Spec (appId : List Nat) : List Nat :=
  List.replicate (32 - appId.length) 0 ++ appId

/-!
Embedding of `DistributedCounter` (counter.py).  Addresses are the
checksummed hex strings that web3 / eth_account produce, modelled as
their ASCII byte lists; the code compares them with Python `==`, i.e.
exact equality.  Timestamps are natural numbers.  The outcomes of the
external calls made inside one monitoring tick (the `currentLeader()`
ledger query, the `getActiveInstances()` query inside `ping_leader`,
and the HTTP health request) are supplied by a `TickEnv`; a `none`
models the call raising an exception, which the code catches.
-/

/-- One entry appended to `operation_log` by `increment_counter`
(counter.py lines 478-484). -/
structure LogEntry where
  timestamp : Nat
  operation : List Nat
  new_value : Nat
  leader : List Nat
deriving DecidableEq, Repr

/-- The mutable local state of `DistributedCounter` that the claims are
about (counter.py lines 69-72). -/
structure CounterState where
  counter_value : Nat
  operation_log : List LogEntry
  is_leader : Bool
  last_leader_heartbeat : Nat
deriving DecidableEq, Repr

/-- A `castVote(target, isNoConfidence)` invocation handed to the ledger
(counter.py lines 387 and 419). -/
structure Vote where
  target : List Nat
  noConfidence : Bool
deriving DecidableEq, Repr

/-- One HTTP request issued by the leader probe: its URL and the timeout
passed to `aiohttp.ClientTimeout(total=...)`. -/
structure ProbeReq where
  url : List Nat
  timeoutSeconds : Nat
deriving DecidableEq, Repr

/-- Outcomes of the external calls during one monitoring tick.
`currentLeader = none` models the `currentLeader().call()` ledger query
raising; `activeInstancesOk = false` models `getActiveInstances().call()`
raising inside `ping_leader`; `httpResult = none` models the health
request raising (timeout or connection error), `some s` a response with
HTTP status `s`. -/
structure TickEnv where
  currentLeader : Option (List Nat)
  activeInstancesOk : Bool
  httpResult : Option Nat
deriving DecidableEq, Repr

/-- ASCII bytes of the zero address string compared against at
counter.py line 351. -/
def zeroAddressBytes : List Nat :=
  asciiBytes "0x0000000000000000000000000000000000000000"

/-- URL requested by `DistributedCounter.ping_leader` (counter.py
line 371): it is the fixed string `http://localhost:8080/health`,
whatever `leader_address` was passed in. -/
def pingLeaderUrl (leader_address : List Nat) : List Nat :=
  asciiBytes "http://localhost:8080/health"

/-- `DistributedCounter.ping_leader` (counter.py lines 363-378): fetch
`getActiveInstances()` (an exception is caught and yields `false` before
any HTTP request), then GET the health URL with the given timeout and
return whether the status is 200; any exception yields `false`.  Returns
the responsiveness result together with the HTTP requests issued. -/
def pingLeader (leader_address : List Nat) (timeout : Nat) (env : TickEnv) :
    Bool × List ProbeReq :=
  if env.activeInstancesOk then
    match env.httpResult with
    | some status => (status == 200, [⟨pingLeaderUrl leader_address, timeout⟩])
    | none => (false, [⟨pingLeaderUrl leader_address, timeout⟩])
  else
    (false, [])

/-- Everything one `check_leader_status` tick produces: the new local
state, the `castVote` invocations attempted, and the probe requests
issued. -/
structure TickResult where
  state : CounterState
  votes : List Vote
  probes : List ProbeReq
deriving DecidableEq, Repr

/-- `DistributedCounter.check_leader_status` (counter.py lines 331-361).
`selfAddr` is `self.host_address`.  A failing `currentLeader()` query is
caught by the surrounding `try` and ends the tick with nothing changed.
On success, `is_leader` is set from `current_leader == our_address`;
for a foreign non-zero leader the node probes it (default timeout 5.0,
counter.py line 363) and casts exactly one vote: no-confidence if the
probe failed, confidence otherwise.  `vote_no_confidence` and
`vote_confidence` catch their own exceptions, so the tick always runs to
the end once the leader query succeeded. -/
def checkLeaderStatus (selfAddr : List Nat) (env : TickEnv)
    (s : CounterState) : TickResult :=
  match env.currentLeader with
  | none => ⟨s, [], []⟩
  | some current_leader =>
    if current_leader == selfAddr then
      ⟨{ s with is_leader := true }, [], []⟩
    else
      let s' := { s with is_leader := false }
      if current_leader == zeroAddressBytes then
        ⟨s', [], []⟩
      else
        let ping := pingLeader current_leader 5 env
        if ping.1 then
          ⟨s', [⟨current_leader, false⟩], ping.2⟩
        else
          ⟨s', [⟨current_leader, true⟩], ping.2⟩

/-- The monitoring loop `monitor_leader_health` (counter.py
lines 321-329): run `check_leader_status` once per period forever;
every exception is caught and the loop continues with the next tick.
`monitorRun envs s n` is the local state after `n` ticks whose external
outcomes are `envs 0, ..., envs (n-1)`. -/
def monitorRun (selfAddr : List Nat) (envs : Nat → TickEnv)
    (s : CounterState) : Nat → CounterState
  | 0 => s
  | n + 1 => (checkLeaderStatus selfAddr (envs n) (monitorRun selfAddr envs s n)).state

/-- `DistributedCounter.leader_heartbeat` loop body (counter.py
lines 444-457): if `is_leader`, set `last_leader_heartbeat` to the
current time; otherwise do nothing.  The second component lists the
ledger writes made by the tick — the body contains no contract call,
so it is empty. -/
def leaderHeartbeatTick (now : Nat) (s : CounterState) :
    CounterState × List Vote :=
  if s.is_leader then
    ({ s with last_leader_heartbeat := now }, [])
  else
    (s, [])

/-- Response of the `/increment` handler. -/
inductive IncrementResponse where
  | forbidden
  | ok (new_value : Nat) (operation_id : Nat)
deriving DecidableEq, Repr

/-- `DistributedCounter.increment_counter` (counter.py lines 467-495):
a non-leader answers 403 and changes nothing; the leader increments
`counter_value`, appends one `operation_log` entry and answers the new
value together with `len(self.operation_log)` as operation id.  (The
counter-attestation submission it also makes catches its own exceptions
and touches no local state.) -/
def incrementCounter (now : Nat) (selfAddr : List Nat) (s : CounterState) :
    IncrementResponse × CounterState :=
  if !s.is_leader then
    (.forbidden, s)
  else
    let v := s.counter_value + 1
    let entry : LogEntry := ⟨now, asciiBytes "increment", v, selfAddr⟩
    let s' := { s with
      counter_value := v,
      operation_log := s.operation_log ++ [entry] }
    (.ok v s'.operation_log.length, s')

/-- `DStackP2PSDK.get_peers` (dstack_cluster.py lines 199-213): return
the queried endpoint list, or `[]` when the `getPeerEndpoints()` call
raised (`none`). -/
def getPeers (queryResult : Option (List (List Nat))) : List (List Nat) :=
  match queryResult with
  | some endpoints => endpoints
  | none => []

/-!
Theorems.  The claim identifiers follow CLAIMS.json.
-/

/-- Helper: `debugAppMessage` always differs from `claimedAppPreimage`
for the same purpose and key — the two `"0x"` bytes make it longer. -/
theorem debugAppMessage_ne_claimed (purposeBytes derivedPublicKey : List Nat) :
    debugAppMessage purposeBytes derivedPublicKey ≠
      claimedAppPreimage purposeBytes derivedPublicKey := by
  intro h
  have hl := congrArg List.length h
  simp [debugAppMessage, claimedAppPreimage, asciiBytes] at hl
  omega

/-- C1 (counterexample): at the concrete compressed derived public key
`0x02` followed by 32 zero bytes and purpose `"ethereum"`, the
app-signature preimage built by the verification side
(`debug_signature_verification.py` lines 32-41) differs from the one
built by the generation side (`DStackP2PSDK.register`,
dstack_cluster.py line 118): the former inserts the two bytes `"0x"`
before the hex digits.  So the two sides do not use one common
`purpose + ":" + lowercase-hex` preimage, contrary to the claim. -/
theorem c1_app_preimage_counterexample :
    debugAppMessage ethereumPurposeBytes (2 :: List.replicate 32 0) ≠
      registerAppMessage (2 :: List.replicate 32 0) := by decide

/-- C1 (amended): the generation side (`DStackP2PSDK.register`) builds
exactly the preimage `purpose + ":" + lowercase-hex(compressed derived
public key)` with no `"0x"`, hashes it with raw keccak256 and recovers
the app public key from the app signature over exactly that hash; the
debug verification script instead prefixes the hex digits with `"0x"`,
so its preimage always differs from that string. -/
theorem c1_app_preimage_amended (keccak : List Nat → List Nat)
    (recoverPubkey : List Nat → List Nat → List Nat)
    (appSignature derivedPubkeySec1 purposeBytes : List Nat) :
    registerAppMessage derivedPubkeySec1 =
      claimedAppPreimage ethereumPurposeBytes derivedPubkeySec1 ∧
    registerRecoveredAppPubkey keccak recoverPubkey appSignature derivedPubkeySec1 =
      recoverPubkey appSignature
        (keccak (claimedAppPreimage ethereumPurposeBytes derivedPubkeySec1)) ∧
    debugAppMessage purposeBytes derivedPubkeySec1 ≠
      claimedAppPreimage purposeBytes derivedPubkeySec1 :=
  ⟨rfl, rfl, debugAppMessage_ne_claimed purposeBytes derivedPubkeySec1⟩

/-- C2 (counterexample): at a concrete all-zero 32-byte appId, a
concrete 20-byte recovered signer address and the concrete compressed
app public key `0x02` followed by 32 zero bytes, the KMS preimage built
by `debug_signature_verification.py` line 61 — which appends the 20
bytes of the address returned by `Account._recover_hash`, not a
33-byte compressed public key — differs from the claimed preimage
`"dstack-kms-issued:" + appId(32) + compressedAppPubkey`; and the
`kms_working` preimage of `test_contract_signature_verification.py`
line 88, built from the appId truncated to 20 bytes, differs from the
claimed preimage built from the same appId padded to 32 bytes. -/
theorem c2_kms_preimage_counterexample :
    debugKmsMessage (List.replicate 32 0) (List.replicate 20 0) ≠
      claimedKmsPreimage (List.replicate 32 0) (2 :: List.replicate 32 0) ∧
    testKmsMessageWorking (List.replicate 20 0) (2 :: List.replicate 32 0) ≠
      claimedKmsPreimage (registerAppIdBytes32 (List.replicate 20 0))
        (2 :: List.replicate 32 0) := by
  constructor <;> decide

/-- C2 (amended): the acceptance condition of the in-repo verification
is a case-insensitive comparison of the recovered KMS signer address
with the expected root, with recovery failure rejecting; and the
"current format" preimage of `test_contract_signature_verification.py`
line 95 is exactly the claimed
`"dstack-kms-issued:" + appId(32 bytes) + compressed app public key`
(while the debug script's preimage appends the recovered 20-byte app
address and the unpadded appId instead, see the counterexample). -/
theorem c2_kms_accept_amended (keccak : List Nat → List Nat)
    (recoverAddress : List Nat → List Nat → Option (List Nat))
    (appIdBytes32 appPubkeySec1 kmsSignature expectedRoot : List Nat) :
    testKmsMessageCurrent appIdBytes32 appPubkeySec1 =
      claimedKmsPreimage appIdBytes32 appPubkeySec1 ∧
    (verifyKmsLink keccak recoverAddress
        (testKmsMessageCurrent appIdBytes32 appPubkeySec1) kmsSignature expectedRoot
          = true ↔
      ∃ signer,
        recoverAddress (keccak (claimedKmsPreimage appIdBytes32 appPubkeySec1))
            kmsSignature = some signer ∧
        lowerBytes signer = lowerBytes expectedRoot) := by
  refine ⟨rfl, ?_⟩
  unfold verifyKmsLink testKmsMessageCurrent claimedKmsPreimage
  cases hrec : recoverAddress
      (keccak (kmsIssuedTag ++ appIdBytes32 ++ appPubkeySec1)) kmsSignature with
  | none => simp
  | some signer => simp [kmsAccept]

/-- C2 (amended, witness): the amended statement evaluated at concrete
inputs: the identity keccak stand-in, a recovery stand-in returning the
all-zero 20-byte address, the all-zero 32-byte appId, the compressed
public key `0x02 00...00`, an all-zero signature and the all-zero
expected root. -/
theorem c2_kms_accept_amended_witness :
    testKmsMessageCurrent (List.replicate 32 0) (2 :: List.replicate 32 0) =
      claimedKmsPreimage (List.replicate 32 0) (2 :: List.replicate 32 0) ∧
    (verifyKmsLink (fun l => l) (fun _ _ => some (List.replicate 20 0))
        (testKmsMessageCurrent (List.replicate 32 0) (2 :: List.replicate 32 0))
        (List.replicate 65 0) (List.replicate 20 0) = true ↔
      ∃ signer,
        (fun (_ : List Nat) (_ : List Nat) => some (List.replicate 20 0))
            (claimedKmsPreimage (List.replicate 32 0) (2 :: List.replicate 32 0))
            (List.replicate 65 0) = some signer ∧
        lowerBytes signer = lowerBytes (List.replicate 20 0)) :=
  c2_kms_accept_amended (fun l => l) (fun _ _ => some (List.replicate 20 0))
    (List.replicate 32 0) (2 :: List.replicate 32 0) (List.replicate 65 0)
    (List.replicate 20 0)

/-- Helper: for an appId of at most 32 bytes the `ljust`-then-truncate
conversion is exactly the appId followed by the zero padding. -/
theorem registerAppIdBytes32_eq_rightPad (appId : List Nat)
    (h : appId.length ≤ 32) :
    registerAppIdBytes32 appId =
      appId ++ List.replicate (32 - appId.length) 0 := by
  unfold registerAppIdBytes32
  exact List.take_of_length_le (by simp; omega)

/-- C3: for every appId shorter than 32 bytes, the bytes32 value built
by `DStackP2PSDK.register` (dstack_cluster.py line 125) is the appId
right-padded with zero bytes to exactly 32 bytes; the independently
written conversion in `test_signature_formats`
(test_contract_signature_verification.py line 78) produces the
identical value; and whenever the appId's first byte is non-zero the
result differs from the left-padded layout. -/
theorem c3_appid_right_padded (appId : List Nat) (h : appId.length < 32) :
    registerAppIdBytes32 appId =
      appId ++ List.replicate (32 - appId.length) 0 ∧
    (registerAppIdBytes32 appId).length = 32 ∧
    testAppIdBytes32 appId = registerAppIdBytes32 appId ∧
    (appId.headD 0 ≠ 0 →
      registerAppIdBytes32 appId ≠ appIdLeftPad32Spec appId) := by
  have hr := registerAppIdBytes32_eq_rightPad appId (Nat.le_of_lt h)
  refine ⟨hr, ?_, rfl, ?_⟩
  · rw [hr]
    simp
    omega
  · intro hhead heq
    cases appId with
    | nil => exact hhead rfl
    | cons a as =>
      rw [hr] at heq
      unfold appIdLeftPad32Spec at heq
      obtain ⟨k, hk⟩ : ∃ k, 32 - (a :: as).length = k + 1 := by
        refine ⟨31 - (a :: as).length, ?_⟩
        simp at h ⊢
        omega
      rw [hk, List.replicate_succ] at heq
      simp at heq
      exact hhead (by simp [heq.1])

/-- C3 (witness): the theorem evaluated at the concrete 20-byte appId
`aabbccdd` followed by 16 zero bytes. -/
theorem c3_appid_right_padded_witness :
    registerAppIdBytes32 ([170, 187, 204, 221] ++ List.replicate 16 0) =
      ([170, 187, 204, 221] ++ List.replicate 16 0) ++ List.replicate 12 0 ∧
    registerAppIdBytes32 ([170, 187, 204, 221] ++ List.replicate 16 0) ≠
      appIdLeftPad32Spec ([170, 187, 204, 221] ++ List.replicate 16 0) := by
  have hmain := c3_appid_right_padded ([170, 187, 204, 221] ++ List.replicate 16 0)
    (by decide)
  exact ⟨by simpa using hmain.1, hmain.2.2.2 (by decide)⟩

/-- C4: whenever the `currentLeader()` query of a monitoring tick
succeeds and returns `L` (counter.py lines 334-348), the tick sets
`is_leader` to exactly the comparison `L == host_address`: `true` on
equality, `false` otherwise, whatever the rest of the tick does. -/
theorem c4_is_leader_iff_current_leader (selfAddr : List Nat) (env : TickEnv)
    (s : CounterState) (L : List Nat) (h : env.currentLeader = some L) :
    (checkLeaderStatus selfAddr env s).state.is_leader = (L == selfAddr) ∧
    ((checkLeaderStatus selfAddr env s).state.is_leader = true ↔ L = selfAddr) := by
  simp only [checkLeaderStatus, h]
  split_ifs with h1 h2 h3 <;> simp_all

/-- C4 (witness): a concrete tick in which the ledger returns this
node's own address, and one in which it returns a different address. -/
theorem c4_is_leader_iff_current_leader_witness :
    (checkLeaderStatus (asciiBytes "0xAb01") ⟨some (asciiBytes "0xAb01"), true, some 200⟩
        ⟨0, [], false, 0⟩).state.is_leader = (asciiBytes "0xAb01" == asciiBytes "0xAb01") ∧
    ((checkLeaderStatus (asciiBytes "0xAb01") ⟨some (asciiBytes "0xAb01"), true, some 200⟩
        ⟨0, [], false, 0⟩).state.is_leader = true ↔ asciiBytes "0xAb01" = asciiBytes "0xAb01") :=
  c4_is_leader_iff_current_leader (asciiBytes "0xAb01")
    ⟨some (asciiBytes "0xAb01"), true, some 200⟩ ⟨0, [], false, 0⟩
    (asciiBytes "0xAb01") rfl

/-- C5: in a monitoring tick whose leader query returned `L`
(counter.py lines 339-358): if `L` is this node or the zero address, no
probe request is issued and no vote is cast; otherwise the vote list of
the tick is the single vote `castVote(L, not responsive)` — confidence
when the probe succeeded, no-confidence when it failed, never both. -/
theorem c5_exactly_one_vote (selfAddr : List Nat) (env : TickEnv)
    (s : CounterState) (L : List Nat) (h : env.currentLeader = some L) :
    (L = selfAddr →
      (checkLeaderStatus selfAddr env s).votes = [] ∧
      (checkLeaderStatus selfAddr env s).probes = []) ∧
    (L = zeroAddressBytes →
      (checkLeaderStatus selfAddr env s).votes = [] ∧
      (checkLeaderStatus selfAddr env s).probes = []) ∧
    (L ≠ selfAddr → L ≠ zeroAddressBytes →
      (checkLeaderStatus selfAddr env s).votes =
        [⟨L, !(pingLeader L 5 env).1⟩] ∧
      ((pingLeader L 5 env).1 = true →
        (checkLeaderStatus selfAddr env s).votes = [⟨L, false⟩]) ∧
      ((pingLeader L 5 env).1 = false →
        (checkLeaderStatus selfAddr env s).votes = [⟨L, true⟩])) := by
  simp only [checkLeaderStatus, h]
  split_ifs with h1 h2 h3 <;> simp_all

/-- C5 (witness): a concrete tick in which a foreign, non-zero leader
fails its probe (connection error), so exactly the one no-confidence
vote is cast. -/
theorem c5_exactly_one_vote_witness :
    (checkLeaderStatus (asciiBytes "0xAb01") ⟨some (asciiBytes "0xCd02"), true, none⟩
        ⟨0, [], false, 0⟩).votes =
      [⟨asciiBytes "0xCd02", !(pingLeader (asciiBytes "0xCd02") 5
          ⟨some (asciiBytes "0xCd02"), true, none⟩).1⟩] ∧
    (checkLeaderStatus (asciiBytes "0xAb01") ⟨some (asciiBytes "0xCd02"), true, none⟩
        ⟨0, [], false, 0⟩).votes = [⟨asciiBytes "0xCd02", true⟩] :=
  have hm := c5_exactly_one_vote (asciiBytes "0xAb01")
    ⟨some (asciiBytes "0xCd02"), true, none⟩ ⟨0, [], false, 0⟩
    (asciiBytes "0xCd02") rfl
  have hne : asciiBytes "0xCd02" ≠ asciiBytes "0xAb01" := by decide
  have hnz : asciiBytes "0xCd02" ≠ zeroAddressBytes := by decide
  ⟨(hm.2.2 hne hnz).1, (hm.2.2 hne hnz).2.2 rfl⟩

/-- C6 (counterexample): for two distinct concrete leader addresses the
probe of `ping_leader` (counter.py line 371) requests the very same
URL, the fixed string `http://localhost:8080/health` — the endpoint is
not determined by the claimed leader's address or identity, contrary to
the claim. -/
theorem c6_probe_endpoint_counterexample :
    asciiBytes "0xAaAaAaAaAaAaAaAaAaAaAaAaAaAaAaAaAaAaAaAa" ≠
      asciiBytes "0xBbBbBbBbBbBbBbBbBbBbBbBbBbBbBbBbBbBbBbBb" ∧
    pingLeaderUrl (asciiBytes "0xAaAaAaAaAaAaAaAaAaAaAaAaAaAaAaAaAaAaAaAa") =
      pingLeaderUrl (asciiBytes "0xBbBbBbBbBbBbBbBbBbBbBbBbBbBbBbBbBbBbBbBb") ∧
    pingLeaderUrl (asciiBytes "0xAaAaAaAaAaAaAaAaAaAaAaAaAaAaAaAaAaAaAaAa") =
      asciiBytes "http://localhost:8080/health" :=
  ⟨by decide, rfl, rfl⟩

/-- C6 (amended): the probe of a foreign non-zero claimed leader always
requests the fixed URL `http://localhost:8080/health` (a demo
simplification the code notes), with the timeout passed through —
`check_leader_status` uses `ping_leader`'s default of 5 time units —
and the probe succeeds exactly when the `getActiveInstances()` query
did not raise and the health request returned HTTP 200; a timeout,
connection error, or non-success status yields failure. -/
theorem c6_probe_amended (leader : List Nat) (timeout : Nat) (env : TickEnv) :
    (∀ req ∈ (pingLeader leader timeout env).2,
      req.url = asciiBytes "http://localhost:8080/health" ∧
      req.timeoutSeconds = timeout) ∧
    ((pingLeader leader timeout env).1 = true ↔
      env.activeInstancesOk = true ∧ env.httpResult = some 200) ∧
    (∀ selfAddr s L, env.currentLeader = some L → L ≠ selfAddr →
      L ≠ zeroAddressBytes →
      (checkLeaderStatus selfAddr env s).probes = (pingLeader L 5 env).2) := by
  refine ⟨?_, ?_, ?_⟩
  · intro req hreq
    unfold pingLeader at hreq
    cases hai : env.activeInstancesOk <;> rw [hai] at hreq <;> simp at hreq
    cases hh : env.httpResult <;> rw [hh] at hreq <;> simp at hreq <;>
      simp [hreq, pingLeaderUrl]
  · unfold pingLeader
    cases hai : env.activeInstancesOk <;> cases hh : env.httpResult <;> simp_all
  · intro selfAddr s L h hne hnz
    simp only [checkLeaderStatus, h]
    split_ifs with h1 h2 h3 <;> simp_all

/-- C6 (amended, witness): a concrete probe of a foreign leader that
answered HTTP 200: its one request goes to the fixed URL with timeout
5, and the probe result is success. -/
theorem c6_probe_amended_witness :
    (∀ req ∈ (pingLeader (asciiBytes "0xCd02") 5 ⟨some (asciiBytes "0xCd02"), true, some 200⟩).2,
      req.url = asciiBytes "http://localhost:8080/health" ∧
      req.timeoutSeconds = 5) ∧
    ((pingLeader (asciiBytes "0xCd02") 5 ⟨some (asciiBytes "0xCd02"), true, some 200⟩).1 = true ↔
      (⟨some (asciiBytes "0xCd02"), true, some 200⟩ : TickEnv).activeInstancesOk = true ∧
      (⟨some (asciiBytes "0xCd02"), true, some 200⟩ : TickEnv).httpResult = some 200) ∧
    (∀ selfAddr s L,
      (⟨some (asciiBytes "0xCd02"), true, some 200⟩ : TickEnv).currentLeader = some L →
      L ≠ selfAddr → L ≠ zeroAddressBytes →
      (checkLeaderStatus selfAddr ⟨some (asciiBytes "0xCd02"), true, some 200⟩ s).probes =
        (pingLeader L 5 ⟨some (asciiBytes "0xCd02"), true, some 200⟩).2) :=
  c6_probe_amended (asciiBytes "0xCd02") 5 ⟨some (asciiBytes "0xCd02"), true, some 200⟩

/-- Helper: one monitoring tick never touches `counter_value` or
`operation_log`, whatever the external outcomes were. -/
theorem checkLeaderStatus_counter_frame (selfAddr : List Nat) (env : TickEnv)
    (s : CounterState) :
    (checkLeaderStatus selfAddr env s).state.counter_value = s.counter_value ∧
    (checkLeaderStatus selfAddr env s).state.operation_log = s.operation_log := by
  cases hcl : env.currentLeader with
  | none => simp [checkLeaderStatus, hcl]
  | some L =>
    simp only [checkLeaderStatus, hcl]
    split_ifs <;> simp

/-- C7: the monitoring tick is a total function of the external
outcomes — a failing leader query (caught at counter.py lines 360-361)
ends the tick with the state unchanged and no vote or probe — and for
every tick, failing or not, `counter_value` and `operation_log` are
unchanged; consequently the loop `monitor_leader_health` (counter.py
lines 321-329) preserves them over any number of periods with any
sequence of external outcomes. -/
theorem c7_tick_error_isolation (selfAddr : List Nat) (env : TickEnv)
    (s : CounterState) :
    (checkLeaderStatus selfAddr env s).state.counter_value = s.counter_value ∧
    (checkLeaderStatus selfAddr env s).state.operation_log = s.operation_log ∧
    (env.currentLeader = none →
      checkLeaderStatus selfAddr env s = ⟨s, [], []⟩) ∧
    (∀ envs : Nat → TickEnv, ∀ n : Nat,
      (monitorRun selfAddr envs s n).counter_value = s.counter_value ∧
      (monitorRun selfAddr envs s n).operation_log = s.operation_log) := by
  refine ⟨(checkLeaderStatus_counter_frame selfAddr env s).1,
    (checkLeaderStatus_counter_frame selfAddr env s).2, ?_, ?_⟩
  · intro h
    simp [checkLeaderStatus, h]
  · intro envs n
    induction n with
    | zero => exact ⟨rfl, rfl⟩
    | succ k ih =>
      simp only [monitorRun]
      have hf := checkLeaderStatus_counter_frame selfAddr (envs k)
        (monitorRun selfAddr envs s k)
      exact ⟨hf.1.trans ih.1, hf.2.trans ih.2⟩

/-- C7 (witness): a concrete failing tick — the leader query raised —
leaves a concrete non-trivial state fully unchanged, and three
monitoring periods over it keep `counter_value` and `operation_log`. -/
theorem c7_tick_error_isolation_witness :
    (checkLeaderStatus (asciiBytes "0xAb01") ⟨none, false, none⟩
        ⟨7, [⟨1, asciiBytes "increment", 7, asciiBytes "0xAb01"⟩], true, 3⟩ =
      ⟨⟨7, [⟨1, asciiBytes "increment", 7, asciiBytes "0xAb01"⟩], true, 3⟩, [], []⟩) ∧
    (monitorRun (asciiBytes "0xAb01") (fun _ => ⟨none, false, none⟩)
        ⟨7, [⟨1, asciiBytes "increment", 7, asciiBytes "0xAb01"⟩], true, 3⟩ 3).counter_value = 7 :=
  have hm := c7_tick_error_isolation (asciiBytes "0xAb01") ⟨none, false, none⟩
    ⟨7, [⟨1, asciiBytes "increment", 7, asciiBytes "0xAb01"⟩], true, 3⟩
  ⟨hm.2.2.1 rfl, (hm.2.2.2 (fun _ => ⟨none, false, none⟩) 3).1⟩

/-- C8: `increment_counter` (counter.py lines 467-495) answers the 403
error and changes nothing when `is_leader` is false; when `is_leader`
is true it increments `counter_value` by exactly 1, appends exactly the
one new log entry to `operation_log`, and reports the new value and the
new log length. -/
theorem c8_increment_leader_gated (now : Nat) (selfAddr : List Nat)
    (s : CounterState) :
    (s.is_leader = false →
      incrementCounter now selfAddr s = (.forbidden, s)) ∧
    (s.is_leader = true →
      (incrementCounter now selfAddr s).2.counter_value = s.counter_value + 1 ∧
      (incrementCounter now selfAddr s).2.operation_log =
        s.operation_log ++
          [⟨now, asciiBytes "increment", s.counter_value + 1, selfAddr⟩] ∧
      (incrementCounter now selfAddr s).1 =
        .ok (s.counter_value + 1) (s.operation_log.length + 1)) := by
  cases hld : s.is_leader <;> simp [incrementCounter, hld]

/-- C8 (witness): a concrete rejected request on a follower state with
existing data, and a concrete accepted request on the same state as
leader. -/
theorem c8_increment_leader_gated_witness :
    incrementCounter 9 (asciiBytes "0xAb01")
        ⟨4, [⟨1, asciiBytes "increment", 4, asciiBytes "0xAb01"⟩], false, 0⟩ =
      (.forbidden, ⟨4, [⟨1, asciiBytes "increment", 4, asciiBytes "0xAb01"⟩], false, 0⟩) ∧
    (incrementCounter 9 (asciiBytes "0xAb01")
        ⟨4, [⟨1, asciiBytes "increment", 4, asciiBytes "0xAb01"⟩], true, 0⟩).2.counter_value = 5 :=
  ⟨(c8_increment_leader_gated 9 (asciiBytes "0xAb01")
      ⟨4, [⟨1, asciiBytes "increment", 4, asciiBytes "0xAb01"⟩], false, 0⟩).1 rfl,
   ((c8_increment_leader_gated 9 (asciiBytes "0xAb01")
      ⟨4, [⟨1, asciiBytes "increment", 4, asciiBytes "0xAb01"⟩], true, 0⟩).2 rfl).1⟩

/-- C9: a heartbeat tick (counter.py lines 444-457) performs no ledger
write and leaves `counter_value`, `operation_log` and `is_leader`
untouched; it sets `last_leader_heartbeat` to the current time exactly
when the node is the leader, and in follower state it changes nothing
at all. -/
theorem c9_heartbeat_local_only (now : Nat) (s : CounterState) :
    (leaderHeartbeatTick now s).2 = [] ∧
    (leaderHeartbeatTick now s).1.counter_value = s.counter_value ∧
    (leaderHeartbeatTick now s).1.operation_log = s.operation_log ∧
    (leaderHeartbeatTick now s).1.is_leader = s.is_leader ∧
    (leaderHeartbeatTick now s).1.last_leader_heartbeat =
      (if s.is_leader then now else s.last_leader_heartbeat) ∧
    (s.is_leader = false → leaderHeartbeatTick now s = (s, [])) := by
  cases hld : s.is_leader <;> simp [leaderHeartbeatTick, hld]

/-- C9 (witness): a concrete heartbeat tick in follower state changes
nothing, and one in leader state only moves `last_leader_heartbeat`. -/
theorem c9_heartbeat_local_only_witness :
    leaderHeartbeatTick 42 ⟨4, [], false, 7⟩ = (⟨4, [], false, 7⟩, []) ∧
    (leaderHeartbeatTick 42 ⟨4, [], true, 7⟩).1.last_leader_heartbeat =
      (if (⟨4, [], true, 7⟩ : CounterState).is_leader then 42 else 7) :=
  ⟨(c9_heartbeat_local_only 42 ⟨4, [], false, 7⟩).2.2.2.2.2 rfl,
   (c9_heartbeat_local_only 42 ⟨4, [], true, 7⟩).2.2.2.2.1⟩

/-- C10: `get_peers` is total over the outcome of the
`getPeerEndpoints()` ledger query (dstack_cluster.py lines 199-213): it
returns the queried list on success and the empty list on failure, so a
failed query is indistinguishable from a cluster with no peers. -/
theorem c10_get_peers_total (endpoints : List (List Nat)) :
    getPeers (some endpoints) = endpoints ∧
    getPeers none = [] ∧
    getPeers none = getPeers (some []) :=
  ⟨rfl, rfl, rfl⟩
